import Mathlib

/-
Verification development for the medvextract backend.

The Python source is shallowly embedded in Lean:
  * src/backend/VetClient/payload_sanitizer.py, src/backend/task.py and
    src/backend/processor/vet_transcript_processor.py define sanitize_payload;
    the three revisions differ only in the enum branch (two of them upper-case
    the enum value), so they are embedded as one function with a Bool flag.
  * src/backend/task.py and src/backend/processor/vet_transcript_processor.py
    define get_cache_key (MD5 of a key-sorted JSON encoding of the input);
    MD5 and the relevant part of json.dumps are implemented concretely.
  * src/backend/utils/resiliency.py defines async_retry, async_circuit_breaker
    (pybreaker semantics), async_fallback and their composition resilient;
    they are embedded as an interpreter over a schedule of call outcomes.
  * src/backend/processor/vet_transcript_processor.py defines the transcript
    processing job, embedded as a pure interpreter over an explicit world
    (redis cache + relational rows) with an oracle for the external
    extraction collaborator.
Python dynamic values are embedded as the inductive type Value below; machine
conventions that matter are kept (for example, Python bool is a subclass of
int, so the isinstance(x, (str, int, float)) test accepts booleans).
-/

namespace MedVX

/-- Embedding of the Python values that flow through the sanitizer: the
admitted shapes are mappings (dict, insertion ordered, unique keys),
sequences (list), enumerated values (all enums in schemas.py are str-valued),
structured models (Pydantic models, carried as their field dictionaries), and
the JSON primitives. Float arithmetic is never performed by the code under
scrutiny, so floats are carried as rationals purely as opaque payloads. -/
inductive Value where
  | vNull
  | vBool (b : Bool)
  | vInt (n : Int)
  | vFloat (q : Rat)
  | vStr (s : String)
  | vEnum (s : String)
  | vList (xs : List Value)
  | vDict (es : List (String × Value))
  | vModel (es : List (String × Value))

/-- Full case mapping of one character under Python str.upper(), for the
Basic Latin and Latin-1 Supplement blocks: ASCII lower-case letters map to
their upper-case forms, the sharp s U+00DF maps to the two-character "SS"
(the full mapping Python uses), the micro sign U+00B5 maps to the Greek
capital mu U+039C, U+00FF maps to U+0178, and the remaining Latin-1
lower-case letters U+00E0 to U+00FE (except the division sign U+00F7) map
down by 0x20. Characters outside these two blocks are carried unchanged;
every string the program actually upper-cases is an ASCII enum name. -/
def pyCharUpper (c : Char) : List Char :=
  if 97 ≤ c.toNat ∧ c.toNat ≤ 122 then [Char.ofNat (c.toNat - 32)]
  else if c.toNat = 0xdf then ['S', 'S']
  else if c.toNat = 0xb5 then [Char.ofNat 0x39c]
  else if c.toNat = 0xff then [Char.ofNat 0x178]
  else if 0xe0 ≤ c.toNat ∧ c.toNat ≤ 0xfe ∧ c.toNat ≠ 0xf7 then [Char.ofNat (c.toNat - 32)]
  else [c]

/-- Embedding of the Python str.upper() method: the full case mapping of
each character, concatenated. -/
def pyUpper (s : String) : String := String.mk (s.data.flatMap pyCharUpper)

/-- An upper-case ASCII identifier: every character is an ASCII upper-case
letter, a digit or an underscore. Python str.upper() is the identity on such
strings, and every enum value declared in schemas.py has this shape. -/
def isUpperAsciiName (s : String) : Bool :=
  s.data.all (fun c =>
    (65 ≤ c.toNat && c.toNat ≤ 90) || (48 ≤ c.toNat && c.toNat ≤ 57) || c.toNat == 95)

/-- The underlying values of the five enums declared in
src/backend/models/schemas.py lines 10 to 40 (Priority, TaskStatus,
MedicationRoute, NoteType, ReminderCategory; OTHER is shared by two). -/
def schemasEnumValues : List String :=
  ["HIGH", "MEDIUM", "LOW", "PENDING", "COMPLETED", "CANCELLED",
   "ORAL", "TOPICAL", "INTRAVENOUS", "SUBCUTANEOUS", "OTHER",
   "SOAP", "DISCHARGE", "SHIFT_SUMMARY", "LIFESTYLE", "MEDICATION", "APPOINTMENT"]

/-- Python test isinstance(x, (str, int, float)) from the sanitizer wrapper
check. Python booleans are instances of int, so vBool passes the test. -/
def isPrimSIF : Value → Bool
  | .vStr _ => true
  | .vInt _ => true
  | .vBool _ => true
  | .vFloat _ => true
  | _ => false

mutual

/-- Embedding of sanitize_payload. The three source revisions
(src/backend/VetClient/payload_sanitizer.py lines 4 to 24,
src/backend/task.py lines 129 to 149,
src/backend/processor/vet_transcript_processor.py lines 60 to 71)
differ only in the enum branch: the VetClient and task.py revisions return
obj.value.upper(), the processor revision returns obj.value. The flag upper
selects the revision: sanitizeCore true is the VetClient and task.py text,
sanitizeCore false is the processor text. The vModel branch inlines the
recursive call sanitize_payload(obj.model_dump()): model_dump turns the model
into a dict with the same entries, after which the dict rules apply. -/
def sanitizeCore (upper : Bool) : Value → Value
  | .vDict es =>
    match es.lookup "value" with
    | some w => if isPrimSIF w then w else .vDict (sanitizeEntries upper es)
    | none => .vDict (sanitizeEntries upper es)
  | .vList xs => .vList (sanitizeElems upper xs)
  | .vEnum s => if upper then .vStr (pyUpper s) else .vStr s
  | .vModel es =>
    match es.lookup "value" with
    | some w => if isPrimSIF w then w else .vDict (sanitizeEntries upper es)
    | none => .vDict (sanitizeEntries upper es)
  | .vNull => .vNull
  | .vBool b => .vBool b
  | .vInt n => .vInt n
  | .vFloat q => .vFloat q
  | .vStr s => .vStr s

/-- Dict comprehension of sanitize_payload: keys preserved, values sanitized. -/
def sanitizeEntries (upper : Bool) : List (String × Value) → List (String × Value)
  | [] => []
  | (k, v) :: tl => (k, sanitizeCore upper v) :: sanitizeEntries upper tl

/-- List comprehension of sanitize_payload: each element sanitized in order. -/
def sanitizeElems (upper : Bool) : List Value → List Value
  | [] => []
  | v :: tl => sanitizeCore upper v :: sanitizeElems upper tl

end

/-- The processor revision of sanitize_payload
(src/backend/processor/vet_transcript_processor.py lines 60 to 71). -/
def sanitize_payload : Value → Value := sanitizeCore false

/-- The VetClient and task.py revision of sanitize_payload, which upper-cases
enum values (src/backend/VetClient/payload_sanitizer.py lines 4 to 24 and
src/backend/task.py lines 129 to 149). -/
def sanitize_payload_uc : Value → Value := sanitizeCore true

mutual

/-- A value is JSON-safe when it is built of mappings, sequences and the JSON
primitives only: no enumerated value and no structured model remains. -/
def jsonSafe : Value → Bool
  | .vNull => true
  | .vBool _ => true
  | .vInt _ => true
  | .vFloat _ => true
  | .vStr _ => true
  | .vEnum _ => false
  | .vModel _ => false
  | .vList xs => jsonSafeElems xs
  | .vDict es => jsonSafeEntries es

def jsonSafeElems : List Value → Bool
  | [] => true
  | v :: tl => jsonSafe v && jsonSafeElems tl

def jsonSafeEntries : List (String × Value) → Bool
  | [] => true
  | (_, v) :: tl => jsonSafe v && jsonSafeEntries tl

end

mutual

/-- Well-formed wrapper shapes: every mapping (or model dictionary) anywhere
in the value that contains the key "value" maps it to a primitive in the
sense of isPrimSIF. This is the shape the provider actually emits for its
checked-value wrappers. -/
def goodWrappers : Value → Bool
  | .vNull => true
  | .vBool _ => true
  | .vInt _ => true
  | .vFloat _ => true
  | .vStr _ => true
  | .vEnum _ => true
  | .vList xs => goodWrappersElems xs
  | .vDict es =>
    (match es.lookup "value" with
     | some w => isPrimSIF w
     | none => true) && goodWrappersEntries es
  | .vModel es =>
    (match es.lookup "value" with
     | some w => isPrimSIF w
     | none => true) && goodWrappersEntries es

def goodWrappersElems : List Value → Bool
  | [] => true
  | v :: tl => goodWrappers v && goodWrappersElems tl

def goodWrappersEntries : List (String × Value) → Bool
  | [] => true
  | (_, v) :: tl => goodWrappers v && goodWrappersEntries tl

end

mutual

/-- Fixed points of the sanitizer: no enum, no model, and no mapping whose
key "value" holds a primitive (such a mapping would be unwrapped). -/
def sanitizedVal : Value → Bool
  | .vNull => true
  | .vBool _ => true
  | .vInt _ => true
  | .vFloat _ => true
  | .vStr _ => true
  | .vEnum _ => false
  | .vModel _ => false
  | .vList xs => sanitizedElems xs
  | .vDict es =>
    (match es.lookup "value" with
     | some w => !isPrimSIF w
     | none => true) && sanitizedEntries es

def sanitizedElems : List Value → Bool
  | [] => true
  | v :: tl => sanitizedVal v && sanitizedElems tl

def sanitizedEntries : List (String × Value) → Bool
  | [] => true
  | (_, v) :: tl => sanitizedVal v && sanitizedEntries tl

end

/-- Embedding of the Python exceptions that the embedded code can raise or
observe. CircuitBreakerError, HTTPException, TypeError and AttributeError are
all subclasses of Exception; baseExc stands for a BaseException that is not
an Exception (KeyboardInterrupt, SystemExit). -/
inductive PyExc where
  | typeError (msg : String)
  | attributeError (msg : String)
  | appError (msg : String)
  | httpError (code : Nat) (msg : String)
  | circuitOpen (msg : String)
  | baseExc (msg : String)
deriving DecidableEq

/-- Python isinstance(e, Exception): true for every embedded exception except
the BaseException-only kinds. -/
def isExceptionSub : PyExc → Bool
  | .baseExc _ => false
  | _ => true

/-- MD5 implementation (hashlib.md5), operating on byte lists with 32-bit
words as Nat reduced modulo 2 to the 32. The constants and round structure
are the RFC 1321 algorithm that hashlib implements. -/
def w32mod : Nat := 4294967296

def wnot (x : Nat) : Nat := 4294967295 - x % w32mod

def rotl (x s : Nat) : Nat := (x % w32mod * 2 ^ s + x % w32mod / 2 ^ (32 - s)) % w32mod

def mdF (b c d : Nat) : Nat := Nat.lor (Nat.land b c) (Nat.land (wnot b) d)

def mdG (b c d : Nat) : Nat := Nat.lor (Nat.land b d) (Nat.land c (wnot d))

def mdH (b c d : Nat) : Nat := Nat.xor b (Nat.xor c d)

def mdI (b c d : Nat) : Nat := Nat.xor c (Nat.lor b (wnot d))

/-- The 64 MD5 sine-derived constants of RFC 1321. -/
def mdK : List Nat :=
  [0xd76aa478, 0xe8c7b756, 0x242070db, 0xc1bdceee,
   0xf57c0faf, 0x4787c62a, 0xa8304613, 0xfd469501,
   0x698098d8, 0x8b44f7af, 0xffff5bb1, 0x895cd7be,
   0x6b901122, 0xfd987193, 0xa679438e, 0x49b40821,
   0xf61e2562, 0xc040b340, 0x265e5a51, 0xe9b6c7aa,
   0xd62f105d, 0x02441453, 0xd8a1e681, 0xe7d3fbc8,
   0x21e1cde6, 0xc33707d6, 0xf4d50d87, 0x455a14ed,
   0xa9e3e905, 0xfcefa3f8, 0x676f02d9, 0x8d2a4c8a,
   0xfffa3942, 0x8771f681, 0x6d9d6122, 0xfde5380c,
   0xa4beea44, 0x4bdecfa9, 0xf6bb4b60, 0xbebfbc70,
   0x289b7ec6, 0xeaa127fa, 0xd4ef3085, 0x04881d05,
   0xd9d4d039, 0xe6db99e5, 0x1fa27cf8, 0xc4ac5665,
   0xf4292244, 0x432aff97, 0xab9423a7, 0xfc93a039,
   0x655b59c3, 0x8f0ccc92, 0xffeff47d, 0x85845dd1,
   0x6fa87e4f, 0xfe2ce6e0, 0xa3014314, 0x4e0811a1,
   0xf7537e82, 0xbd3af235, 0x2ad7d2bb, 0xeb86d391]

/-- The 64 MD5 per-round left-rotation amounts of RFC 1321. -/
def mdS : List Nat :=
  [7, 12, 17, 22, 7, 12, 17, 22, 7, 12, 17, 22, 7, 12, 17, 22,
   5, 9, 14, 20, 5, 9, 14, 20, 5, 9, 14, 20, 5, 9, 14, 20,
   4, 11, 16, 23, 4, 11, 16, 23, 4, 11, 16, 23, 4, 11, 16, 23,
   6, 10, 15, 21, 6, 10, 15, 21, 6, 10, 15, 21, 6, 10, 15, 21]

structure MD5St where
  a : Nat
  b : Nat
  c : Nat
  d : Nat

/-- Little-endian 32-bit word j of a 64-byte chunk. -/
def chunkWord (chunk : List Nat) (j : Nat) : Nat :=
  chunk.getD (4 * j) 0 + chunk.getD (4 * j + 1) 0 * 256 +
    chunk.getD (4 * j + 2) 0 * 65536 + chunk.getD (4 * j + 3) 0 * 16777216

def md5step (chunk : List Nat) (st : MD5St) (i : Nat) : MD5St :=
  let fg : Nat × Nat :=
    if i < 16 then (mdF st.b st.c st.d, i)
    else if i < 32 then (mdG st.b st.c st.d, (5 * i + 1) % 16)
    else if i < 48 then (mdH st.b st.c st.d, (3 * i + 5) % 16)
    else (mdI st.b st.c st.d, (7 * i) % 16)
  let f2 : Nat := (fg.1 + st.a + mdK.getD i 0 + chunkWord chunk fg.2) % w32mod
  ⟨st.d, (st.b + rotl f2 (mdS.getD i 0)) % w32mod, st.b, st.c⟩

def md5compress (st : MD5St) (chunk : List Nat) : MD5St :=
  let e := (List.range 64).foldl (md5step chunk) st
  ⟨(st.a + e.a) % w32mod, (st.b + e.b) % w32mod, (st.c + e.c) % w32mod, (st.d + e.d) % w32mod⟩

def toBytesLE4 (x : Nat) : List Nat :=
  [x % 256, x / 256 % 256, x / 65536 % 256, x / 16777216 % 256]

def toBytesLE8 (x : Nat) : List Nat :=
  toBytesLE4 (x % w32mod) ++ toBytesLE4 (x / w32mod % w32mod)

/-- MD5 padding: the byte 0x80, zeros up to 56 modulo 64, then the bit length
as a 64-bit little-endian quantity. -/
def md5pad (msg : List Nat) : List Nat :=
  msg ++ [128] ++ List.replicate ((119 - msg.length % 64) % 64) 0 ++
    toBytesLE8 (msg.length * 8 % (w32mod * w32mod))

def chunks64 (l : List Nat) : List (List Nat) :=
  if hne : l.isEmpty then [] else
    have : (l.drop 64).length < l.length := by
      simp only [List.isEmpty_iff] at hne
      have hp : 0 < l.length := List.length_pos.mpr hne
      simp only [List.length_drop]
      omega
    l.take 64 :: chunks64 (l.drop 64)
termination_by l.length

def md5init : MD5St := ⟨0x67452301, 0xefcdab89, 0x98badcfe, 0x10325476⟩

/-- The 16 MD5 digest bytes of a byte-list message. -/
def md5digest (msg : List Nat) : List Nat :=
  let st := (chunks64 (md5pad msg)).foldl md5compress md5init
  toBytesLE4 st.a ++ toBytesLE4 st.b ++ toBytesLE4 st.c ++ toBytesLE4 st.d

/-- The sixteen lower-case hex digit characters. -/
def hexDigits : List Char := "0123456789abcdef".data

def hexChar (n : Nat) : Char := hexDigits.getD n '0'

def hexByte (b : Nat) : List Char := [hexChar (b / 16 % 16), hexChar (b % 16)]

/-- Rendering of hashlib hexdigest(): two lower-case hex digits per byte. -/
def hexdigest (bytes : List Nat) : String := String.mk (bytes.flatMap hexByte)

def md5hexdigest (msg : List Nat) : String := hexdigest (md5digest msg)

/-- Embedding of datetime.date: a plain year-month-day triple. Only identity
and ISO rendering are used by the code under scrutiny. -/
structure PyDate where
  year : Nat
  month : Nat
  day : Nat
deriving DecidableEq

/-- Embedding of the Pydantic model VetInput
(src/backend/models/schemas.py lines 192 to 200). -/
structure VetInput where
  transcript : String
  notes : Option String
  patient_id : String
  consult_date : PyDate
  veterinarian_id : String
  clinic_id : String
  template_id : String
  language : String
deriving DecidableEq

def padZeros (w : Nat) (s : String) : String :=
  String.mk (List.replicate (w - s.length) '0' ++ s.data)

/-- ISO rendering of a date, as Pydantic model_dump(mode="json") produces. -/
def isoDate (d : PyDate) : String :=
  padZeros 4 (toString d.year) ++ "-" ++ padZeros 2 (toString d.month) ++ "-" ++
    padZeros 2 (toString d.day)

/-- JSON string escaping as json.dumps performs it with the default
ensure_ascii=True: backslash, quote, the named control escapes, "\u00XX" for
the remaining control characters and "\uXXXX" for every non-ASCII character
of the basic multilingual plane (surrogate pairs for astral-plane characters
are not modelled; no string in this code base needs them). -/
def jsonEscapeChar (c : Char) : List Char :=
  if c = '\\' then ['\\', '\\']
  else if c = '"' then ['\\', '"']
  else if c = '\n' then ['\\', 'n']
  else if c = '\t' then ['\\', 't']
  else if c = '\r' then ['\\', 'r']
  else if c = '\x08' then ['\\', 'b']
  else if c = '\x0c' then ['\\', 'f']
  else if c.toNat < 32 then ['\\', 'u', '0', '0', hexChar (c.toNat / 16), hexChar (c.toNat % 16)]
  else if c.toNat < 127 then [c]
  else ['\\', 'u', hexChar (c.toNat / 4096 % 16), hexChar (c.toNat / 256 % 16),
        hexChar (c.toNat / 16 % 16), hexChar (c.toNat % 16)]

/-- A JSON string literal: quote, escaped characters, quote. -/
def pyJsonStr (s : String) : String :=
  "\"" ++ String.mk (s.data.flatMap jsonEscapeChar) ++ "\""

/-- Key order on entry pairs, used by json.dumps(obj, sort_keys=True). -/
def keyLE {β : Type} (a b : String × β) : Prop := a.1 ≤ b.1

instance {β : Type} : DecidableRel (keyLE (β := β)) := fun a b => by
  unfold keyLE; infer_instance

instance {β : Type} : IsTotal (String × β) keyLE := ⟨fun a b => le_total a.1 b.1⟩

instance {β : Type} : IsTrans (String × β) keyLE := ⟨fun _ _ _ h1 h2 => le_trans h1 h2⟩

/-- Sorting of the entry list by key, as sort_keys=True sorts a dict. -/
def sortPairs {β : Type} (es : List (String × β)) : List (String × β) :=
  es.insertionSort keyLE

/-- Strict key order, used only in proofs about sortPairs. -/
def keyLT {β : Type} (a b : String × β) : Prop := a.1 < b.1

instance {β : Type} : IsAntisymm (String × β) keyLT :=
  ⟨fun _ _ h1 h2 => absurd h2 (lt_asymm h1)⟩

/-- UTF-8 encoding of a string, as input_str.encode("utf-8") produces. -/
def utf8Bytes (s : String) : List Nat := s.toUTF8.toList.map (fun b => b.toNat)

/-- Entries of vet_input.model_dump(mode="json") for the processor revision
of get_cache_key: every field is rendered as a JSON-ready string (dates in
ISO form) or None, in the declaration order of the Pydantic model. -/
def model_dump_json (vi : VetInput) : List (String × Option String) :=
  [("transcript", some vi.transcript),
   ("notes", vi.notes),
   ("patient_id", some vi.patient_id),
   ("consult_date", some (isoDate vi.consult_date)),
   ("veterinarian_id", some vi.veterinarian_id),
   ("clinic_id", some vi.clinic_id),
   ("template_id", some vi.template_id),
   ("language", some vi.language)]

/-- Serialization of one JSON-mode value: a string literal or null. -/
def jsonValStr : Option String → String
  | some s => pyJsonStr s
  | none => "null"

/-- The canonical encoding json.dumps(d, sort_keys=True) of a flat dict of
strings and None, with the default separators. -/
def dumpsSorted (es : List (String × Option String)) : String :=
  "\x7b" ++
    String.intercalate ", "
      ((sortPairs es).map (fun kv => pyJsonStr kv.1 ++ ": " ++ jsonValStr kv.2)) ++
    "\x7d"

/-- The fingerprint of an entry list: MD5 hexdigest of the UTF-8 bytes of its
canonical key-sorted JSON encoding. -/
def cacheKeyOfEntries (es : List (String × Option String)) : String :=
  md5hexdigest (utf8Bytes (dumpsSorted es))

/-- Embedding of the processor revision of get_cache_key
(src/backend/processor/vet_transcript_processor.py lines 54 to 57):
hashlib.md5 of json.dumps(vet_input.model_dump(mode="json"), sort_keys=True)
encoded as UTF-8, rendered by hexdigest(). -/
def get_cache_key (vi : VetInput) : String :=
  cacheKeyOfEntries (model_dump_json vi)

/-- Values produced by vet_input.model_dump() in python mode, as used by the
task.py revision of get_cache_key: strings and None pass through, but the
consult_date field stays a datetime.date object. -/
inductive PyVal where
  | pstr (s : String)
  | pnone
  | pdate (d : PyDate)
deriving DecidableEq

/-- Entries of input.model_dump() (python mode, task.py revision): the
consult_date entry keeps the date object. -/
def model_dump_py (vi : VetInput) : List (String × PyVal) :=
  [("transcript", PyVal.pstr vi.transcript),
   ("notes", match vi.notes with | some s => PyVal.pstr s | none => PyVal.pnone),
   ("patient_id", PyVal.pstr vi.patient_id),
   ("consult_date", PyVal.pdate vi.consult_date),
   ("veterinarian_id", PyVal.pstr vi.veterinarian_id),
   ("clinic_id", PyVal.pstr vi.clinic_id),
   ("template_id", PyVal.pstr vi.template_id),
   ("language", PyVal.pstr vi.language)]

/-- Serialization of one python-mode value: json.dumps raises TypeError on a
date object, which is not JSON serializable. -/
def pySerValOrErr : PyVal → Except PyExc String
  | .pstr s => .ok (pyJsonStr s)
  | .pnone => .ok "null"
  | .pdate _ => .error (.typeError "Object of type date is not JSON serializable")

/-- Serialization of the sorted entries of a python-mode dict, stopping at
the first non-serializable value as json.dumps does. -/
def serEntries : List (String × PyVal) → Except PyExc (List String)
  | [] => .ok []
  | (k, v) :: tl =>
    match pySerValOrErr v with
    | .error e => .error e
    | .ok sv =>
      match serEntries tl with
      | .error e => .error e
      | .ok rest => .ok ((pyJsonStr k ++ ": " ++ sv) :: rest)

/-- The encoding json.dumps(d, sort_keys=True) of a python-mode dict, which
can raise TypeError. -/
def dumps_py (es : List (String × PyVal)) : Except PyExc String :=
  (serEntries (sortPairs es)).map
    (fun parts => "\x7b" ++ String.intercalate ", " parts ++ "\x7d")

/-- Embedding of the task.py revision of get_cache_key
(src/backend/task.py lines 27 to 30): identical to the processor revision
except that it serializes input.model_dump() in python mode, so json.dumps
receives the raw date object. -/
def task_get_cache_key (vi : VetInput) : Except PyExc String :=
  (dumps_py (model_dump_py vi)).map (fun s => md5hexdigest (utf8Bytes s))

/-- Outcome of one Python call: a returned value or a raised exception. -/
inductive Res where
  | ok (v : Value)
  | exc (e : PyExc)

/-- Configuration of pybreaker.CircuitBreaker: fail_max consecutive failures
open the breaker, reset_timeout seconds later a trial call is allowed. -/
structure BreakerCfg where
  fail_max : Nat
  reset_timeout : Nat
deriving DecidableEq

/-- The module-level global_breaker of resiliency.py lines 10 to 14:
fail_max = 5, reset_timeout = 60. -/
def globalBreakerCfg : BreakerCfg := ⟨5, 60⟩

/-- Shared circuit breaker state: closed with a consecutive-failure count, or
opened at a given time (the half-open trial is a transient of the next call). -/
inductive BState where
  | closed (failCount : Nat)
  | opened (openedAt : Nat)
deriving DecidableEq

/-- Embedding of async_retry (resiliency.py lines 17 to 36), that is tenacity
AsyncRetrying with stop_after_attempt(attempts), retry_if_exception_type and
reraise=True: invoke the wrapped unit of work up to `attempts` times,
retrying only while the raised exception is an instance of one of the
configured classes, and re-raise the last exception once attempts are
exhausted. The wrapped work is an oracle beh from invocation index to
outcome; the backoff sleep changes no outcome and is not modelled. Returns
the outcome together with the next invocation index. -/
def retryLoop (retryOn : PyExc → Bool) (beh : Nat → Res) : Nat → Nat → Res × Nat
  | 0, calls => (.exc (.appError "no attempts configured"), calls)
  | remaining + 1, calls =>
    match beh calls with
    | .ok v => (.ok v, calls + 1)
    | .exc e =>
      if remaining = 0 then (.exc e, calls + 1)
      else if retryOn e then retryLoop retryOn beh remaining (calls + 1)
      else (.exc e, calls + 1)

/-- Embedding of async_circuit_breaker (resiliency.py lines 39 to 53)
with pybreaker semantics. Closed: the wrapped work runs; success resets the
failure counter, a failure increments it and, at fail_max, opens the breaker
raising CircuitBreakerError. Open: within reset_timeout each call is
rejected with CircuitBreakerError without running the work; after the
timeout one trial runs, closing the breaker on success and re-opening it
(with CircuitBreakerError) on failure. -/
def breakerCall (cfg : BreakerCfg) (st : BState) (now : Nat)
    (run : Nat → Res × Nat) (calls : Nat) : Res × BState × Nat :=
  match st with
  | .closed fc =>
    match run calls with
    | (.ok v, c2) => (.ok v, .closed 0, c2)
    | (.exc e, c2) =>
      if cfg.fail_max ≤ fc + 1 then
        (.exc (.circuitOpen "Failures threshold reached, circuit breaker opened"),
         .opened now, c2)
      else (.exc e, .closed (fc + 1), c2)
  | .opened t =>
    if now < t + cfg.reset_timeout then
      (.exc (.circuitOpen "Timeout not elapsed yet, circuit breaker still open"),
       .opened t, calls)
    else
      match run calls with
      | (.ok v, c2) => (.ok v, .closed 0, c2)
      | (.exc _, c2) =>
        (.exc (.circuitOpen "Trial call failed, circuit breaker opened"), .opened now, c2)

/-- Embedding of async_fallback (resiliency.py lines 56 to 71): except
Exception returns the fallback value, or the handler result when a handler
is configured; exceptions that are not Exception instances propagate. -/
def fallbackRun (fallback_value : Value) (handler : Option (PyExc → Value)) (r : Res) : Res :=
  match r with
  | .ok v => .ok v
  | .exc e =>
    if isExceptionSub e then
      .ok (match handler with
           | some h => h e
           | none => fallback_value)
    else .exc e

/-- Embedding of resilient (resiliency.py lines 74 to 97): the function is
decorated by retry first, the circuit breaker wraps the retry-decorated
function, and fallback wraps the breaker. Returns the final outcome, the new
breaker state and the number of invocations of the underlying function. -/
def resilientRun (cfg : BreakerCfg) (st : BState) (now : Nat)
    (retry_attempts : Nat) (retryOn : PyExc → Bool)
    (fallback_value : Value) (handler : Option (PyExc → Value))
    (beh : Nat → Res) : Res × BState × Nat :=
  let inner := breakerCall cfg st now (retryLoop retryOn beh retry_attempts) 0
  (fallbackRun fallback_value handler inner.1, inner.2.1, inner.2.2)

/-- Modelled from the spec: the composition the claim describes in words,
with each retry attempt independently subject to breaker gating (the breaker
state carries over from attempt to attempt) and a breaker-open rejection
never retried further. Written only to be compared with resilientRun. -/
def resilientSpecAttempts (cfg : BreakerCfg) (now : Nat) (retryOn : PyExc → Bool)
    (beh : Nat → Res) : Nat → BState → Nat → Res × BState × Nat
  | 0, st, calls => (.exc (.appError "no attempts configured"), st, calls)
  | remaining + 1, st, calls =>
    match breakerCall cfg st now (fun c => (beh c, c + 1)) calls with
    | (.ok v, st2, c2) => (.ok v, st2, c2)
    | (.exc (.circuitOpen m), st2, c2) => (.exc (.circuitOpen m), st2, c2)
    | (.exc e, st2, c2) =>
      if remaining = 0 then (.exc e, st2, c2)
      else if retryOn e then resilientSpecAttempts cfg now retryOn beh remaining st2 c2
      else (.exc e, st2, c2)

/-- Modelled from the spec: fallback over the per-attempt-gated composition
of resilientSpecAttempts. Written only to be compared with resilientRun. -/
def resilientSpecRun (cfg : BreakerCfg) (st : BState) (now : Nat)
    (retry_attempts : Nat) (retryOn : PyExc → Bool)
    (fallback_value : Value) (handler : Option (PyExc → Value))
    (beh : Nat → Res) : Res × BState × Nat :=
  let inner := resilientSpecAttempts cfg now retryOn beh retry_attempts st 0
  (fallbackRun fallback_value handler inner.1, inner.2.1, inner.2.2)

/-- Member names of the TaskStatus enum of src/backend/models/schemas.py
lines 16 to 19: PENDING, COMPLETED, CANCELLED. There is no FAILED member;
the database enum (src/backend/models/database.py lines 45 to 48) has
FAILED, but both task revisions import TaskStatus from schemas. -/
def schemasTaskStatusMembers : List String := ["PENDING", "COMPLETED", "CANCELLED"]

/-- Python attribute access TaskStatus.name on the schemas enum: the str
value of the member (these str enums use the member name as value), or an
AttributeError when the member does not exist. -/
def schemasTaskStatusAttr (name : String) : Except PyExc String :=
  if schemasTaskStatusMembers.contains name then .ok name
  else .error (.attributeError ("type object TaskStatus has no attribute " ++ name))

/-- Python str(e) on an embedded exception. -/
def pyStr : PyExc → String
  | .typeError m => m
  | .attributeError m => m
  | .appError m => m
  | .httpError c m => toString c ++ ": " ++ m
  | .circuitOpen m => m
  | .baseExc m => m

/-- One row of the transcript_results table
(src/backend/models/database.py lines 110 to 153), with the columns the
processing job reads or writes. -/
structure Row where
  task_id : String
  transcript : String
  notes : Option String
  status : String
  result : Option Value
  raw_result : Option Value
  error_message : Option String
  patient_id : String
  veterinarian_id : String
  clinic_id : String
  template_id : String
  language : String
  consult_date : PyDate

/-- The external stores the job touches: the redis result cache (values are
carried as the decoded JSON documents; every stored document serializes to a
nonempty string, so a lookup hit is truthy for the `if cached` test) and the
relational transcript_results rows. -/
structure World where
  cache : List (String × Value)
  db : List Row

/-- Availability of the redis calls: a false flag stands for the redis call
raising (caught and logged by the job, never fatal). -/
structure JobFlags where
  cacheGetOk : Bool
  cacheSetOk : Bool

/-- Result of one run of the job: the value returned or exception raised,
the final state of the stores, and how many times the external extraction
collaborator was invoked. -/
structure JobResult where
  result : Except PyExc Value
  world : World
  extractCalls : Nat

/-- In-place update of the first matching row, as the SQLAlchemy
select-then-mutate-then-commit sequence performs it. -/
def updateFirst (p : Row → Bool) (f : Row → Row) : List Row → List Row
  | [] => []
  | r :: rs => if p r then f r :: rs else r :: updateFirst p f rs

/-- Embedding of the body of _process_vet_transcript
(src/backend/processor/vet_transcript_processor.py lines 74 to 131):
compute the fingerprint, consult the cache (a redis failure is treated as a
miss), on a miss insert a PENDING row, invoke the extraction collaborator
directly (the oracle extract gives the outcome of each invocation), sanitize,
update the row to COMPLETED with raw and sanitized payloads, write the cache
(a redis failure is logged and ignored) and return the sanitized payload.
Enum member accesses go through schemasTaskStatusAttr, as the source
evaluates TaskStatus.PENDING and TaskStatus.COMPLETED. -/
def processVetTranscriptInner (flags : JobFlags) (w : World) (tid : String)
    (vin : VetInput) (extract : Nat → Res) : JobResult :=
  let cache_key := get_cache_key vin
  let cached : Option Value := if flags.cacheGetOk then w.cache.lookup cache_key else none
  match cached with
  | some v => ⟨.ok v, w, 0⟩
  | none =>
    match schemasTaskStatusAttr "PENDING" with
    | .error e => ⟨.error e, w, 0⟩
    | .ok pst =>
      let row0 : Row := ⟨tid, vin.transcript, vin.notes, pst, none, none, none,
        vin.patient_id, vin.veterinarian_id, vin.clinic_id, vin.template_id,
        vin.language, vin.consult_date⟩
      let w1 : World := ⟨w.cache, w.db ++ [row0]⟩
      match extract 0 with
      | .exc e => ⟨.error e, w1, 1⟩
      | .ok raw =>
        let sanitized := sanitize_payload raw
        match schemasTaskStatusAttr "COMPLETED" with
        | .error e => ⟨.error e, w1, 1⟩
        | .ok cst =>
          let db2 := updateFirst (fun r => r.task_id == tid)
            (fun r => { r with raw_result := some raw, result := some sanitized,
                               status := cst }) w1.db
          let cache2 := if flags.cacheSetOk then (cache_key, sanitized) :: w1.cache
                        else w1.cache
          ⟨.ok sanitized, ⟨cache2, db2⟩, 1⟩

/-- Embedding of the Celery task process_vet_transcript
(src/backend/processor/vet_transcript_processor.py lines 134 to 156): run the
body; on an exception look the row up and set status := TaskStatus.FAILED and
the stringified error, then re-raise. Because the schemas TaskStatus enum has
no FAILED member, that attribute access raises AttributeError inside
fail_entry, which escapes asyncio.run and replaces the original exception;
the write never happens and the final `raise` is not reached. The .ok branch
of schemasTaskStatusAttr "FAILED" is kept as the source intends it but is
dead code. -/
def process_vet_transcript (flags : JobFlags) (w : World) (tid : String)
    (vin : VetInput) (extract : Nat → Res) : JobResult :=
  let inner := processVetTranscriptInner flags w tid vin extract
  match inner.result with
  | .ok v => ⟨.ok v, inner.world, inner.extractCalls⟩
  | .error e =>
    match inner.world.db.find? (fun r => r.task_id == tid) with
    | some _ =>
      match schemasTaskStatusAttr "FAILED" with
      | .ok fstat =>
        ⟨.error e,
         ⟨inner.world.cache,
          updateFirst (fun r => r.task_id == tid)
            (fun r => { r with status := fstat, error_message := some (pyStr e) })
            inner.world.db⟩,
         inner.extractCalls⟩
      | .error ae => ⟨.error ae, inner.world, inner.extractCalls⟩
    | none => ⟨.error e, inner.world, inner.extractCalls⟩

/-- The PENDING row the job inserts for a submission. -/
def pendingRow (tid : String) (vin : VetInput) : Row :=
  ⟨tid, vin.transcript, vin.notes, "PENDING", none, none, none,
   vin.patient_id, vin.veterinarian_id, vin.clinic_id, vin.template_id,
   vin.language, vin.consult_date⟩

/-- The COMPLETED row after a successful extraction. -/
def completedRow (tid : String) (vin : VetInput) (raw : Value) : Row :=
  ⟨tid, vin.transcript, vin.notes, "COMPLETED", some (sanitize_payload raw), some raw, none,
   vin.patient_id, vin.veterinarian_id, vin.clinic_id, vin.template_id,
   vin.language, vin.consult_date⟩

/-- The lifecycle invariant of one transcript_results row: result and
raw_result are present exactly for COMPLETED rows (and then the error column
is empty), error_message is present exactly for FAILED rows (and then the
result columns are empty). In a terminal state exactly one of the two groups
is non-null and the status column matches it. -/
def RowInv (r : Row) : Prop :=
  ((r.result.isSome ∨ r.raw_result.isSome) ↔ r.status = "COMPLETED") ∧
  (r.status = "COMPLETED" → r.result.isSome ∧ r.raw_result.isSome ∧ r.error_message = none) ∧
  (r.error_message.isSome ↔ r.status = "FAILED") ∧
  (r.status = "FAILED" → r.result = none ∧ r.raw_result = none)

theorem jsonSafe_of_isPrimSIF {w : Value} (h : isPrimSIF w = true) : jsonSafe w = true := by
  cases w <;> simp_all [isPrimSIF, jsonSafe]

theorem sanitizedVal_of_isPrimSIF {w : Value} (h : isPrimSIF w = true) :
    sanitizedVal w = true := by
  cases w <;> simp_all [isPrimSIF, sanitizedVal]

/-- Keys are preserved by the dict comprehension, values are sanitized. -/
theorem lookup_sanitizeEntries (u : Bool) (es : List (String × Value)) (k : String) :
    (sanitizeEntries u es).lookup k = (es.lookup k).map (sanitizeCore u) := by
  induction es with
  | nil => simp [sanitizeEntries]
  | cons hd tl ih =>
    obtain ⟨k', v⟩ := hd
    cases hkk : k == k' <;> simp [sanitizeEntries, List.lookup, hkk, ih]

/-- Sanitizer output never contains an enumerated value or a structured
model, for all three source revisions at once. -/
theorem sanitizeCore_jsonSafe (u : Bool) :
    (∀ v, jsonSafe (sanitizeCore u v) = true) ∧
    (∀ xs, jsonSafeElems (sanitizeElems u xs) = true) ∧
    (∀ es, jsonSafeEntries (sanitizeEntries u es) = true) := by
  refine sanitizeCore.mutual_induct u
    (fun v => jsonSafe (sanitizeCore u v) = true)
    (fun xs => jsonSafeElems (sanitizeElems u xs) = true)
    (fun es => jsonSafeEntries (sanitizeEntries u es) = true)
    ?_ ?_ ?_ ?_ ?_ ?_ ?_ ?_ ?_ ?_ ?_ ?_ ?_ ?_ ?_ ?_ ?_ ?_
  case _ => intro es w hl hp; simp [sanitizeCore, hl, hp, jsonSafe_of_isPrimSIF hp]
  case _ => intro es w hl hp ih; simp [sanitizeCore, hl, hp, jsonSafe, ih]
  case _ => intro es hl ih; simp [sanitizeCore, hl, jsonSafe, ih]
  case _ => intro xs ih; simp [sanitizeCore, jsonSafe, ih]
  case _ => intro s hu; simp [sanitizeCore, hu, jsonSafe]
  case _ => intro s hu; simp [sanitizeCore, hu, jsonSafe]
  case _ => intro es w hl hp; simp [sanitizeCore, hl, hp, jsonSafe_of_isPrimSIF hp]
  case _ => intro es w hl hp ih; simp [sanitizeCore, hl, hp, jsonSafe, ih]
  case _ => intro es hl ih; simp [sanitizeCore, hl, jsonSafe, ih]
  case _ => simp [sanitizeCore, jsonSafe]
  case _ => intro b; simp [sanitizeCore, jsonSafe]
  case _ => intro n; simp [sanitizeCore, jsonSafe]
  case _ => intro q; simp [sanitizeCore, jsonSafe]
  case _ => intro s; simp [sanitizeCore, jsonSafe]
  case _ => simp [sanitizeElems, jsonSafeElems]
  case _ => intro v tl ihv ihtl; simp [sanitizeElems, jsonSafeElems, ihv, ihtl]
  case _ => simp [sanitizeEntries, jsonSafeEntries]
  case _ => intro k v tl ihv ihtl; simp [sanitizeEntries, jsonSafeEntries, ihv, ihtl]

/-- Sanitizer fixed points are left unchanged by another pass. -/
theorem sanitizeCore_of_sanitizedVal (u : Bool) :
    (∀ v, sanitizedVal v = true → sanitizeCore u v = v) ∧
    (∀ xs, sanitizedElems xs = true → sanitizeElems u xs = xs) ∧
    (∀ es, sanitizedEntries es = true → sanitizeEntries u es = es) := by
  refine sanitizeCore.mutual_induct u
    (fun v => sanitizedVal v = true → sanitizeCore u v = v)
    (fun xs => sanitizedElems xs = true → sanitizeElems u xs = xs)
    (fun es => sanitizedEntries es = true → sanitizeEntries u es = es)
    ?_ ?_ ?_ ?_ ?_ ?_ ?_ ?_ ?_ ?_ ?_ ?_ ?_ ?_ ?_ ?_ ?_ ?_
  case _ => intro es w hl hp hs; simp [sanitizedVal, hl, hp] at hs
  case _ => intro es w hl hp ih hs; simp [sanitizedVal, hl] at hs; simp [sanitizeCore, hl, hp, ih hs.2]
  case _ => intro es hl ih hs; simp [sanitizedVal, hl] at hs; simp [sanitizeCore, hl, ih hs]
  case _ => intro xs ih hs; simp [sanitizedVal] at hs; simp [sanitizeCore, ih hs]
  case _ => intro s _ hs; simp [sanitizedVal] at hs
  case _ => intro s _ hs; simp [sanitizedVal] at hs
  case _ => intro es w _ _ hs; simp [sanitizedVal] at hs
  case _ => intro es w _ _ _ hs; simp [sanitizedVal] at hs
  case _ => intro es _ _ hs; simp [sanitizedVal] at hs
  case _ => intro _; simp [sanitizeCore]
  case _ => intro b _; simp [sanitizeCore]
  case _ => intro n _; simp [sanitizeCore]
  case _ => intro q _; simp [sanitizeCore]
  case _ => intro s _; simp [sanitizeCore]
  case _ => intro _; simp [sanitizeElems]
  case _ => intro v tl ihv ihtl hs; simp [sanitizedElems] at hs; simp [sanitizeElems, ihv hs.1, ihtl hs.2]
  case _ => intro _; simp [sanitizeEntries]
  case _ => intro k v tl ihv ihtl hs; simp [sanitizedEntries] at hs; simp [sanitizeEntries, ihv hs.1, ihtl hs.2]

/-- On well-formed wrapper shapes, one sanitizer pass reaches a fixed point. -/
theorem sanitizedVal_sanitizeCore (u : Bool) :
    (∀ v, goodWrappers v = true → sanitizedVal (sanitizeCore u v) = true) ∧
    (∀ xs, goodWrappersElems xs = true → sanitizedElems (sanitizeElems u xs) = true) ∧
    (∀ es, goodWrappersEntries es = true → sanitizedEntries (sanitizeEntries u es) = true) := by
  refine sanitizeCore.mutual_induct u
    (fun v => goodWrappers v = true → sanitizedVal (sanitizeCore u v) = true)
    (fun xs => goodWrappersElems xs = true → sanitizedElems (sanitizeElems u xs) = true)
    (fun es => goodWrappersEntries es = true → sanitizedEntries (sanitizeEntries u es) = true)
    ?_ ?_ ?_ ?_ ?_ ?_ ?_ ?_ ?_ ?_ ?_ ?_ ?_ ?_ ?_ ?_ ?_ ?_
  case _ => intro es w hl hp _; simp [sanitizeCore, hl, hp, sanitizedVal_of_isPrimSIF hp]
  case _ => intro es w hl hp ih hg; simp [goodWrappers, hl] at hg; exact absurd hg.1 hp
  case _ =>
    intro es hl ih hg
    simp [goodWrappers, hl] at hg
    simp [sanitizeCore, hl, sanitizedVal, lookup_sanitizeEntries, ih hg]
  case _ => intro xs ih hg; simp [goodWrappers] at hg; simp [sanitizeCore, sanitizedVal, ih hg]
  case _ => intro s hu _; simp [sanitizeCore, hu, sanitizedVal]
  case _ => intro s hu _; simp [sanitizeCore, hu, sanitizedVal]
  case _ => intro es w hl hp _; simp [sanitizeCore, hl, hp, sanitizedVal_of_isPrimSIF hp]
  case _ => intro es w hl hp ih hg; simp [goodWrappers, hl] at hg; exact absurd hg.1 hp
  case _ =>
    intro es hl ih hg
    simp [goodWrappers, hl] at hg
    simp [sanitizeCore, hl, sanitizedVal, lookup_sanitizeEntries, ih hg]
  case _ => intro _; simp [sanitizeCore, sanitizedVal]
  case _ => intro b _; simp [sanitizeCore, sanitizedVal]
  case _ => intro n _; simp [sanitizeCore, sanitizedVal]
  case _ => intro q _; simp [sanitizeCore, sanitizedVal]
  case _ => intro s _; simp [sanitizeCore, sanitizedVal]
  case _ => intro _; simp [sanitizeElems, sanitizedElems]
  case _ =>
    intro v tl ihv ihtl hg
    simp [goodWrappersElems] at hg
    simp [sanitizeElems, sanitizedElems, ihv hg.1, ihtl hg.2]
  case _ => intro _; simp [sanitizeEntries, sanitizedEntries]
  case _ =>
    intro k v tl ihv ihtl hg
    simp [goodWrappersEntries] at hg
    simp [sanitizeEntries, sanitizedEntries, ihv hg.1, ihtl hg.2]

theorem sanitizeCore_idem_of_goodWrappers (u : Bool) (v : Value)
    (h : goodWrappers v = true) :
    sanitizeCore u (sanitizeCore u v) = sanitizeCore u v :=
  (sanitizeCore_of_sanitizedVal u).1 _ ((sanitizedVal_sanitizeCore u).1 v h)

/-- C3 counterexample: the payload sanitizer is not idempotent on all values
built from mappings, sequences, enums, models and primitives. On the mapping
x with entry "value" mapped to the mapping with entry "value" mapped to 5,
the first pass does not unwrap the outer mapping (its "value" entry is not a
primitive) but rewrites the inner one to 5, producing a mapping whose "value"
entry IS a primitive; the second pass then unwraps it to the bare 5. -/
theorem C3_sanitizer_not_idempotent_counterexample :
    sanitize_payload (sanitize_payload
        (Value.vDict [("value", Value.vDict [("value", Value.vInt 5)])])) ≠
      sanitize_payload (Value.vDict [("value", Value.vDict [("value", Value.vInt 5)])]) := by
  intro h
  have h5 : Value.vInt 5 = Value.vDict [("value", Value.vInt 5)] := h
  exact Value.noConfusion h5

/-- C3 amended: the payload sanitizer (both the processor revision and the
upper-casing VetClient and task.py revision) is idempotent on every value in
which each mapping that contains the key "value" maps it to a primitive
(string, integer, float or boolean) — the wrapper shape the provider emits.
In general a second pass can differ from the first (see the counterexample). -/
theorem C3_sanitizer_idempotent_on_good_wrappers (v : Value)
    (h : goodWrappers v = true) :
    sanitize_payload (sanitize_payload v) = sanitize_payload v ∧
    sanitize_payload_uc (sanitize_payload_uc v) = sanitize_payload_uc v :=
  ⟨sanitizeCore_idem_of_goodWrappers false v h, sanitizeCore_idem_of_goodWrappers true v h⟩

/-- C3 witness: the amended idempotence theorem applied to a concrete
provider-shaped payload with a checked-value wrapper and an enum. -/
theorem C3_sanitizer_idempotent_witness :
    goodWrappers (Value.vDict
      [("route", Value.vDict [("value", Value.vStr "ORAL"), ("checks", Value.vList [])]),
       ("status", Value.vEnum "PENDING")]) = true ∧
    sanitize_payload (sanitize_payload (Value.vDict
      [("route", Value.vDict [("value", Value.vStr "ORAL"), ("checks", Value.vList [])]),
       ("status", Value.vEnum "PENDING")])) = sanitize_payload (Value.vDict
      [("route", Value.vDict [("value", Value.vStr "ORAL"), ("checks", Value.vList [])]),
       ("status", Value.vEnum "PENDING")]) :=
  ⟨rfl, (C3_sanitizer_idempotent_on_good_wrappers (Value.vDict
      [("route", Value.vDict [("value", Value.vStr "ORAL"), ("checks", Value.vList [])]),
       ("status", Value.vEnum "PENDING")]) rfl).1⟩

/-- C7: for every input of the admitted shapes (the Value type covers exactly
the admitted shapes: mappings, sequences, enumerated values, structured
models and primitives), the sanitizer result contains only mappings,
sequences and primitives — no enum and no model survives — hence is
JSON-encodable. Holds for all three source revisions. -/
theorem C7_sanitizer_output_json_safe (v : Value) :
    jsonSafe (sanitize_payload v) = true ∧ jsonSafe (sanitize_payload_uc v) = true :=
  ⟨(sanitizeCore_jsonSafe false).1 v, (sanitizeCore_jsonSafe true).1 v⟩

/-- The upper-casing map fixes every character of an upper-case ASCII
identifier (upper-case letters, digits, underscore): none of its case
mappings applies below code point 97. -/
theorem pyCharUpper_eq_of_nameChar {c : Char}
    (h : ((65 ≤ c.toNat && c.toNat ≤ 90) || (48 ≤ c.toNat && c.toNat ≤ 57) ||
      c.toNat == 95) = true) :
    pyCharUpper c = [c] := by
  simp only [Bool.or_eq_true, Bool.and_eq_true, decide_eq_true_eq, beq_iff_eq] at h
  have hb : c.toNat ≤ 95 := by
    rcases h with (⟨h1, h2⟩ | ⟨h1, h2⟩) | h1 <;> omega
  unfold pyCharUpper
  rw [if_neg (by omega), if_neg (by omega), if_neg (by omega), if_neg (by omega),
    if_neg (by omega)]

/-- Python str.upper() is the identity on upper-case ASCII identifiers. -/
theorem pyUpper_of_isUpperAsciiName {s : String} (h : isUpperAsciiName s = true) :
    pyUpper s = s := by
  unfold isUpperAsciiName at h
  rw [List.all_eq_true] at h
  have hdata : ∀ l : List Char,
      (∀ c ∈ l, ((65 ≤ c.toNat && c.toNat ≤ 90) || (48 ≤ c.toNat && c.toNat ≤ 57) ||
        c.toNat == 95) = true) →
      l.flatMap pyCharUpper = l := by
    intro l hl
    induction l with
    | nil => rfl
    | cons c tl ih =>
      rw [List.flatMap_cons, pyCharUpper_eq_of_nameChar (hl c (List.mem_cons_self c tl)),
        ih (fun x hx => hl x (List.mem_cons_of_mem c hx))]
      rfl
  unfold pyUpper
  rw [hdata s.data h]

/-- C8 counterexample: the VetClient and task.py revision of the sanitizer
upper-cases enum values, so an enumerated value whose underlying primitive is
the lower-case string "en" is not mapped to its underlying value. -/
theorem C8_enum_not_underlying_value_counterexample :
    sanitize_payload_uc (Value.vEnum "en") ≠ Value.vStr "en" := by
  have h1 : sanitize_payload_uc (Value.vEnum "en") = Value.vStr "EN" := rfl
  rw [h1]
  intro h
  injection h with h2
  exact absurd h2 (by decide)

/-- C8 amended: the processor revision maps every enumerated value to its
underlying primitive value. The VetClient and task.py revisions map it to
the upper-cased underlying value, so their result is the underlying value
only when upper-casing leaves that value unchanged — in particular on every
upper-case ASCII identifier, which covers every enum value declared in
schemas.py, so on the enumerated values this program actually passes all
revisions return the underlying value. -/
theorem C8_enum_sanitization :
    (∀ s, sanitize_payload (Value.vEnum s) = Value.vStr s) ∧
    (∀ s, sanitize_payload_uc (Value.vEnum s) = Value.vStr (pyUpper s)) ∧
    (∀ s, isUpperAsciiName s = true → sanitize_payload_uc (Value.vEnum s) = Value.vStr s) ∧
    (∀ s, sanitize_payload_uc (Value.vEnum s) = Value.vStr s → pyUpper s = s) ∧
    (∀ s ∈ schemasEnumValues, sanitize_payload_uc (Value.vEnum s) = Value.vStr s) := by
  have h2 : ∀ s, sanitize_payload_uc (Value.vEnum s) = Value.vStr (pyUpper s) :=
    fun s => rfl
  have h3 : ∀ s, isUpperAsciiName s = true →
      sanitize_payload_uc (Value.vEnum s) = Value.vStr s := by
    intro s hs
    rw [h2 s, pyUpper_of_isUpperAsciiName hs]
  refine ⟨fun s => rfl, h2, h3, ?_, ?_⟩
  · intro s h
    have h4 : Value.vStr (pyUpper s) = Value.vStr s := (h2 s).symm.trans h
    exact Value.vStr.inj h4
  · intro s hs
    apply h3
    have hall : schemasEnumValues.all isUpperAsciiName = true := by decide
    exact List.all_eq_true.mp hall s hs

/-- C8 witness: the amended theorem applied to the enum value "PENDING":
an upper-case ASCII name, on which both sanitizer behaviors return the
underlying value. -/
theorem C8_enum_sanitization_witness :
    isUpperAsciiName "PENDING" = true ∧
    sanitize_payload (Value.vEnum "PENDING") = Value.vStr "PENDING" ∧
    sanitize_payload_uc (Value.vEnum "PENDING") = Value.vStr "PENDING" :=
  ⟨by decide, C8_enum_sanitization.1 "PENDING",
   C8_enum_sanitization.2.2.1 "PENDING" (by decide)⟩

theorem hexChar_mem_hexDigits (n : Nat) : hexChar n ∈ hexDigits := by
  unfold hexChar hexDigits
  rcases Nat.lt_or_ge n 16 with h | h
  · interval_cases n <;> decide
  · rw [List.getD_eq_default]
    · decide
    · simpa using h

theorem md5digest_length (msg : List Nat) : (md5digest msg).length = 16 := by
  simp [md5digest, toBytesLE4]

theorem flatMap_hexByte_length (bs : List Nat) : (bs.flatMap hexByte).length = 2 * bs.length := by
  induction bs with
  | nil => rfl
  | cons b tl ih => simp only [List.flatMap_cons, hexByte, List.length_append, List.length_cons, List.length_nil, ih]; omega

theorem md5hexdigest_length (msg : List Nat) : (md5hexdigest msg).length = 32 := by
  show ((md5digest msg).flatMap hexByte).length = 32
  rw [flatMap_hexByte_length, md5digest_length]

theorem md5hexdigest_chars (msg : List Nat) :
    ∀ c ∈ (md5hexdigest msg).data, c ∈ hexDigits := by
  intro c hc
  have hc2 : c ∈ (md5digest msg).flatMap hexByte := hc
  rw [List.mem_flatMap] at hc2
  obtain ⟨b, _, hcb⟩ := hc2
  simp only [hexByte, List.mem_cons, List.mem_singleton] at hcb
  rcases hcb with h | h | h
  · exact h ▸ hexChar_mem_hexDigits _
  · exact h ▸ hexChar_mem_hexDigits _
  · simp at h

/-- A list sorted by key whose keys are pairwise distinct is sorted by
strict key order. -/
theorem sorted_keyLT {β : Type} (l : List (String × β)) (hs : l.Sorted keyLE)
    (hnd : (l.map Prod.fst).Nodup) : l.Sorted keyLT := by
  have hne : l.Pairwise (fun a b : String × β => a.1 ≠ b.1) :=
    (List.pairwise_map).mp hnd
  exact (hs.and hne).imp (fun hab => lt_of_le_of_ne hab.1 hab.2)

/-- Two permutations of one entry list with pairwise distinct keys have the
same key-sorted form: the canonical serialization is insertion-order free. -/
theorem sortPairs_eq_of_perm {β : Type} (es es' : List (String × β))
    (hperm : es.Perm es') (hnd : (es.map Prod.fst).Nodup) :
    sortPairs es = sortPairs es' := by
  have hnd' : (es'.map Prod.fst).Nodup := ((hperm.map Prod.fst).nodup_iff).mp hnd
  have hp1 : (sortPairs es).Perm (sortPairs es') :=
    ((List.perm_insertionSort keyLE es).trans hperm).trans
      (List.perm_insertionSort keyLE es').symm
  have hnd1 : ((sortPairs es).map Prod.fst).Nodup :=
    (((List.perm_insertionSort keyLE es).map Prod.fst).nodup_iff).mpr hnd
  have hnd2 : ((sortPairs es').map Prod.fst).Nodup :=
    (((List.perm_insertionSort keyLE es').map Prod.fst).nodup_iff).mpr hnd'
  exact List.eq_of_perm_of_sorted hp1
    (sorted_keyLT _ (List.sorted_insertionSort keyLE es) hnd1)
    (sorted_keyLT _ (List.sorted_insertionSort keyLE es') hnd2)

/-- Serializing any entry list that contains a date value raises the
TypeError of json.dumps, whichever entry comes first. -/
theorem serEntries_error_of_pdate (es : List (String × PyVal))
    (hmem : ∃ k d, (k, PyVal.pdate d) ∈ es) :
    serEntries es = .error (.typeError "Object of type date is not JSON serializable") := by
  induction es with
  | nil => simp at hmem
  | cons hd tl ih =>
    obtain ⟨k, d, hm⟩ := hmem
    obtain ⟨k', v⟩ := hd
    cases v with
    | pstr s =>
      have hm' : (k, PyVal.pdate d) ∈ tl := by
        rcases List.mem_cons.mp hm with h | h
        · exact absurd (congrArg Prod.snd h) (by simp)
        · exact h
      simp [serEntries, pySerValOrErr, ih ⟨k, d, hm'⟩]
    | pnone =>
      have hm' : (k, PyVal.pdate d) ∈ tl := by
        rcases List.mem_cons.mp hm with h | h
        · exact absurd (congrArg Prod.snd h) (by simp)
        · exact h
      simp [serEntries, pySerValOrErr, ih ⟨k, d, hm'⟩]
    | pdate d' => simp [serEntries, pySerValOrErr]

/-- C4: the processor revision of get_cache_key returns, for every VetInput,
a 32-character lower-case hex fingerprint; equal field values give the
identical string; the fingerprint only depends on the key-value map, not on
the insertion order of the dumped fields (any permutation of the dumped
entries yields the same fingerprint). The task.py revision, however, raises
TypeError on every input: it serializes model_dump() in python mode, where
consult_date is still a datetime.date, which json.dumps cannot encode. -/
theorem C4_cache_key_fingerprint :
    (∀ vi : VetInput, (get_cache_key vi).length = 32 ∧
        ∀ c ∈ (get_cache_key vi).data, c ∈ hexDigits) ∧
    (∀ vi vi' : VetInput, vi = vi' → get_cache_key vi = get_cache_key vi') ∧
    (∀ (vi : VetInput) (es : List (String × Option String)),
        es.Perm (model_dump_json vi) → cacheKeyOfEntries es = get_cache_key vi) ∧
    (∀ vi : VetInput, task_get_cache_key vi =
        .error (.typeError "Object of type date is not JSON serializable")) := by
  refine ⟨?_, ?_, ?_, ?_⟩
  · intro vi
    exact ⟨md5hexdigest_length _, md5hexdigest_chars _⟩
  · intro vi vi' h
    exact congrArg get_cache_key h
  · intro vi es hperm
    have hndDump : ((model_dump_json vi).map Prod.fst).Nodup := by
      simp [model_dump_json]
    have hnd : (es.map Prod.fst).Nodup := ((hperm.map Prod.fst).nodup_iff).mpr hndDump
    have hsort : sortPairs es = sortPairs (model_dump_json vi) :=
      sortPairs_eq_of_perm es (model_dump_json vi) hperm hnd
    unfold get_cache_key cacheKeyOfEntries dumpsSorted
    rw [hsort]
  · intro vi
    have hmem : ("consult_date", PyVal.pdate vi.consult_date) ∈
        sortPairs (model_dump_py vi) := by
      unfold sortPairs
      rw [(List.perm_insertionSort keyLE (model_dump_py vi)).mem_iff]
      simp [model_dump_py]
    have := serEntries_error_of_pdate (sortPairs (model_dump_py vi))
      ⟨"consult_date", vi.consult_date, hmem⟩
    simp [task_get_cache_key, dumps_py, this, Except.map]

/-- C4 witness: moving the notes field in front of the transcript field does
not change the fingerprint of a concrete input. -/
theorem C4_cache_key_witness :
    cacheKeyOfEntries
      [("notes", none),
       ("transcript", some "Dr. Lee: Hello."),
       ("patient_id", some "PET1"),
       ("consult_date", some (isoDate ⟨2025, 1, 1⟩)),
       ("veterinarian_id", some "V1"),
       ("clinic_id", some "C1"),
       ("template_id", some "SOAP_ER"),
       ("language", some "en")] =
    get_cache_key ⟨"Dr. Lee: Hello.", none, "PET1", ⟨2025, 1, 1⟩, "V1", "C1", "SOAP_ER", "en"⟩ :=
  C4_cache_key_fingerprint.2.2.1
    ⟨"Dr. Lee: Hello.", none, "PET1", ⟨2025, 1, 1⟩, "V1", "C1", "SOAP_ER", "en"⟩
    _ (List.Perm.swap _ _ _)

/-- C5 counterexample: retry attempts are NOT independently subject to
breaker gating. With the shared breaker one failure short of its threshold
and a unit of work that fails twice and then succeeds, the code (breaker
around the whole retry loop) performs all three attempts and returns the
success, while the composition described by the claim (per-attempt gating)
would trip the breaker on the first failure, reject the next attempt and
fall back. The two differ observably on this input. -/
theorem C5_per_attempt_gating_counterexample :
    resilientRun globalBreakerCfg (.closed 4) 100 3 isExceptionSub .vNull none
        (fun n => if n == 0 then .exc (.appError "t1")
          else if n == 1 then .exc (.appError "t2") else .ok (.vInt 7)) =
      (.ok (.vInt 7), .closed 0, 3) ∧
    resilientSpecRun globalBreakerCfg (.closed 4) 100 3 isExceptionSub .vNull none
        (fun n => if n == 0 then .exc (.appError "t1")
          else if n == 1 then .exc (.appError "t2") else .ok (.vInt 7)) =
      (.ok .vNull, .opened 100, 1) ∧
    resilientRun globalBreakerCfg (.closed 4) 100 3 isExceptionSub .vNull none
        (fun n => if n == 0 then .exc (.appError "t1")
          else if n == 1 then .exc (.appError "t2") else .ok (.vInt 7)) ≠
      resilientSpecRun globalBreakerCfg (.closed 4) 100 3 isExceptionSub .vNull none
        (fun n => if n == 0 then .exc (.appError "t1")
          else if n == 1 then .exc (.appError "t2") else .ok (.vInt 7)) := by
  refine ⟨rfl, rfl, ?_⟩
  intro h
  have h1 : Res.ok (Value.vInt 7) = Res.ok Value.vNull := congrArg Prod.fst h
  injection h1 with h2
  exact Value.noConfusion h2

/-- C5 amended: in resilient, retry is innermost and fallback wraps the
breaker, but the breaker gates each wrapped call once as a whole, not per
retry attempt. Part one: a breaker-open rejection is returned by the
fallback (fallback value) with zero invocations of the underlying work — it
is never retried. Part two: while the breaker is closed, the whole retry
loop runs as one gated unit whatever the accumulated failure count, so an
eventual in-retry success passes through and resets the breaker. -/
theorem C5_composition_order (cfg : BreakerCfg) (now t fc attempts : Nat)
    (retryOn : PyExc → Bool) (fv : Value) (beh : Nat → Res) (v : Value) (c : Nat) :
    (now < t + cfg.reset_timeout →
      resilientRun cfg (.opened t) now attempts retryOn fv none beh =
        (.ok fv, .opened t, 0)) ∧
    (retryLoop retryOn beh attempts 0 = (.ok v, c) →
      resilientRun cfg (.closed fc) now attempts retryOn fv none beh =
        (.ok v, .closed 0, c)) := by
  constructor
  · intro hlt
    simp [resilientRun, breakerCall, hlt, fallbackRun, isExceptionSub]
  · intro hretry
    simp [resilientRun, breakerCall, hretry, fallbackRun]

/-- C5 witness: the amended composition theorem at a concrete open breaker
(rejection goes to the fallback with zero attempts) and at a concrete closed
breaker with an eventually-successful retry. -/
theorem C5_composition_order_witness :
    (10 < 0 + globalBreakerCfg.reset_timeout ∧
      resilientRun globalBreakerCfg (.opened 0) 10 3 isExceptionSub .vNull none
          (fun _ => .ok (.vInt 1)) =
        (.ok .vNull, .opened 0, 0)) ∧
    (retryLoop isExceptionSub
        (fun n => if n == 0 then .exc (.appError "boom") else .ok (.vInt 2)) 3 0 =
        (.ok (.vInt 2), 2) ∧
      resilientRun globalBreakerCfg (.closed 4) 10 3 isExceptionSub .vNull none
          (fun n => if n == 0 then .exc (.appError "boom") else .ok (.vInt 2)) =
        (.ok (.vInt 2), .closed 0, 2)) :=
  ⟨⟨by decide,
    (C5_composition_order globalBreakerCfg 10 0 0 3 isExceptionSub .vNull
      (fun _ => .ok (.vInt 1)) .vNull 0).1 (by decide)⟩,
   ⟨rfl,
    (C5_composition_order globalBreakerCfg 10 0 4 3 isExceptionSub .vNull
      (fun n => if n == 0 then .exc (.appError "boom") else .ok (.vInt 2)) (.vInt 2) 2).2 rfl⟩⟩

/-- C10: a function decorated with resilient(fallback_value=fv) and the
default policies (3 retry attempts, retry on Exception, the shared breaker
in any state, no handler) never propagates an exception of class Exception:
whatever Exception instances the underlying work raises — including a
deliberately raised HTTPException such as the 500 of get_transcripts — the
decorated call returns normally, and if the work never succeeds it returns
exactly the fallback value. -/
theorem C10_fallback_swallows_exceptions (st : BState) (now : Nat) (fv : Value)
    (beh : Nat → Res)
    (hexc : ∀ n e, beh n = .exc e → isExceptionSub e = true) :
    (∃ v, (resilientRun globalBreakerCfg st now 3 isExceptionSub fv none beh).1 = .ok v) ∧
    ((∀ n v, beh n ≠ .ok v) →
      (resilientRun globalBreakerCfg st now 3 isExceptionSub fv none beh).1 = .ok fv) := by
  have hr : (∃ v c', retryLoop isExceptionSub beh 3 0 = (.ok v, c') ∧ beh (c' - 1) = .ok v) ∨
      (∃ e c', retryLoop isExceptionSub beh 3 0 = (.exc e, c') ∧ isExceptionSub e = true) := by
    rcases h0 : beh 0 with v0 | e0
    · exact .inl ⟨v0, 1, by simp [retryLoop, h0], by simpa using h0⟩
    · have he0 := hexc 0 e0 h0
      rcases h1 : beh 1 with v1 | e1
      · exact .inl ⟨v1, 2, by simp [retryLoop, h0, he0, h1], by simpa using h1⟩
      · have he1 := hexc 1 e1 h1
        rcases h2 : beh 2 with v2 | e2
        · exact .inl ⟨v2, 3, by simp [retryLoop, h0, he0, h1, he1, h2], by simpa using h2⟩
        · exact .inr ⟨e2, 3, by simp [retryLoop, h0, he0, h1, he1, h2], hexc 2 e2 h2⟩
  rcases st with fc | t
  · rcases hr with ⟨v, c', hrl, hsucc⟩ | ⟨e, c', hrl, hee⟩
    · constructor
      · exact ⟨v, by simp [resilientRun, breakerCall, hrl, fallbackRun]⟩
      · intro hne
        exact absurd hsucc (hne _ _)
    · have hres : (resilientRun globalBreakerCfg (.closed fc) now 3 isExceptionSub fv none beh).1 =
          .ok fv := by
        by_cases hfc : globalBreakerCfg.fail_max ≤ fc + 1 <;>
          simp [resilientRun, breakerCall, hrl, hfc, fallbackRun, hee, isExceptionSub]
        simp_all [isExceptionSub]
      exact ⟨⟨fv, hres⟩, fun _ => hres⟩
  · by_cases ht : now < t + globalBreakerCfg.reset_timeout
    · have hres : (resilientRun globalBreakerCfg (.opened t) now 3 isExceptionSub fv none beh).1 =
          .ok fv := by
        simp [resilientRun, breakerCall, ht, fallbackRun, isExceptionSub]
      exact ⟨⟨fv, hres⟩, fun _ => hres⟩
    · rcases hr with ⟨v, c', hrl, hsucc⟩ | ⟨e, c', hrl, hee⟩
      · constructor
        · exact ⟨v, by simp [resilientRun, breakerCall, ht, hrl, fallbackRun]⟩
        · intro hne
          exact absurd hsucc (hne _ _)
      · have hres : (resilientRun globalBreakerCfg (.opened t) now 3 isExceptionSub fv none beh).1 =
            .ok fv := by
          simp [resilientRun, breakerCall, ht, hrl, fallbackRun, isExceptionSub]
        exact ⟨⟨fv, hres⟩, fun _ => hres⟩

/-- C10 witness: the get_transcripts scenario — resilient(fallback_value=[])
around work that always raises HTTPException(500) — returns the empty list. -/
theorem C10_fallback_swallows_witness :
    (∀ n e, (fun _ : Nat => Res.exc (.httpError 500 "Failed to retrieve transcripts")) n =
        .exc e → isExceptionSub e = true) ∧
    (resilientRun globalBreakerCfg (.closed 0) 0 3 isExceptionSub (.vList []) none
        (fun _ => .exc (.httpError 500 "Failed to retrieve transcripts"))).1 =
      .ok (.vList []) := by
  have hexc : ∀ n e, (fun _ : Nat => Res.exc (.httpError 500 "Failed to retrieve transcripts")) n =
      .exc e → isExceptionSub e = true := by
    intro n e h
    injection h with h2
    rw [← h2]
    rfl
  refine ⟨hexc, ?_⟩
  exact (C10_fallback_swallows_exceptions (.closed 0) 0 (.vList [])
    (fun _ => .exc (.httpError 500 "Failed to retrieve transcripts")) hexc).2
    (fun n v h => Res.noConfusion h)

theorem schemasTaskStatusAttr_pending : schemasTaskStatusAttr "PENDING" = .ok "PENDING" := rfl

theorem schemasTaskStatusAttr_completed :
    schemasTaskStatusAttr "COMPLETED" = .ok "COMPLETED" := rfl

theorem schemasTaskStatusAttr_failed :
    schemasTaskStatusAttr "FAILED" =
      .error (.attributeError "type object TaskStatus has no attribute FAILED") := rfl

/-- On a cache hit the job returns the cached document, touches neither
store, and never invokes the collaborator. -/
theorem job_cache_hit (flags : JobFlags) (w : World) (tid : String) (vin : VetInput)
    (extract : Nat → Res) (v : Value)
    (hhit : (if flags.cacheGetOk then w.cache.lookup (get_cache_key vin) else none) = some v) :
    process_vet_transcript flags w tid vin extract = ⟨.ok v, w, 0⟩ := by
  unfold process_vet_transcript processVetTranscriptInner
  simp [hhit]

/-- On a cache miss with a failing extraction call, the job inserts the
PENDING row, makes exactly one extraction attempt, and raises AttributeError
out of the failure handler, leaving the row in PENDING with no error
message. -/
theorem job_extract_error (flags : JobFlags) (w : World) (tid : String) (vin : VetInput)
    (extract : Nat → Res) (e : PyExc)
    (hmiss : (if flags.cacheGetOk then w.cache.lookup (get_cache_key vin) else none) = none)
    (hx : extract 0 = .exc e) :
    process_vet_transcript flags w tid vin extract =
      ⟨.error (.attributeError "type object TaskStatus has no attribute FAILED"),
       ⟨w.cache, w.db ++ [pendingRow tid vin]⟩, 1⟩ := by
  have hinner : processVetTranscriptInner flags w tid vin extract =
      ⟨.error e, ⟨w.cache, w.db ++ [pendingRow tid vin]⟩, 1⟩ := by
    unfold processVetTranscriptInner
    simp [hmiss, schemasTaskStatusAttr_pending, hx, pendingRow]
  have hfind : (w.db ++ [pendingRow tid vin]).find? (fun r => r.task_id == tid) ≠ none := by
    intro hnone
    have := List.find?_eq_none.mp hnone (pendingRow tid vin) (by simp)
    simp [pendingRow] at this
  unfold process_vet_transcript
  rw [hinner]
  rcases hf : (w.db ++ [pendingRow tid vin]).find? (fun r => r.task_id == tid) with _ | r
  · exact absurd hf hfind
  · simp [hf, schemasTaskStatusAttr_failed]

/-- On a cache miss with a fresh task id and a successful extraction call,
the job appends the COMPLETED row, writes the cache when redis is available,
and returns the sanitized payload after exactly one extraction attempt. -/
theorem job_extract_ok (flags : JobFlags) (w : World) (tid : String) (vin : VetInput)
    (extract : Nat → Res) (raw : Value)
    (hmiss : (if flags.cacheGetOk then w.cache.lookup (get_cache_key vin) else none) = none)
    (hfresh : ∀ r ∈ w.db, r.task_id ≠ tid)
    (hx : extract 0 = .ok raw) :
    process_vet_transcript flags w tid vin extract =
      ⟨.ok (sanitize_payload raw),
       ⟨(if flags.cacheSetOk then (get_cache_key vin, sanitize_payload raw) :: w.cache
         else w.cache),
        w.db ++ [completedRow tid vin raw]⟩, 1⟩ := by
  have hupd : ∀ l : List Row, (∀ r ∈ l, r.task_id ≠ tid) →
      updateFirst (fun r => r.task_id == tid)
        (fun r => { r with raw_result := some raw, result := some (sanitize_payload raw),
                           status := "COMPLETED" })
        (l ++ [pendingRow tid vin]) = l ++ [completedRow tid vin raw] := by
    intro l
    induction l with
    | nil =>
      intro _
      simp [updateFirst, pendingRow, completedRow]
    | cons hd tl ih =>
      intro hl
      have hne : (hd.task_id == tid) = false := by
        simp only [beq_eq_false_iff_ne, ne_eq]
        exact hl hd (List.mem_cons_self hd tl)
      simp only [List.cons_append, updateFirst, hne, Bool.false_eq_true, if_false,
        List.cons.injEq, true_and]
      exact ih (fun r hr => hl r (List.mem_cons_of_mem hd hr))
  have hinner : processVetTranscriptInner flags w tid vin extract =
      ⟨.ok (sanitize_payload raw),
       ⟨(if flags.cacheSetOk then (get_cache_key vin, sanitize_payload raw) :: w.cache
         else w.cache),
        w.db ++ [completedRow tid vin raw]⟩, 1⟩ := by
    unfold processVetTranscriptInner
    simp only [hmiss, schemasTaskStatusAttr_pending, hx, schemasTaskStatusAttr_completed]
    have hrow : (⟨tid, vin.transcript, vin.notes, "PENDING", none, none, none,
        vin.patient_id, vin.veterinarian_id, vin.clinic_id, vin.template_id,
        vin.language, vin.consult_date⟩ : Row) = pendingRow tid vin := rfl
    rw [hrow, hupd w.db hfresh]
  unfold process_vet_transcript
  rw [hinner]

/-- The outer Celery wrapper never adds extraction attempts. -/
theorem job_extractCalls_eq (flags : JobFlags) (w : World) (tid : String) (vin : VetInput)
    (extract : Nat → Res) :
    (process_vet_transcript flags w tid vin extract).extractCalls =
      (processVetTranscriptInner flags w tid vin extract).extractCalls := by
  unfold process_vet_transcript
  rcases hres : (processVetTranscriptInner flags w tid vin extract).result with e | v
  · rcases hf : (processVetTranscriptInner flags w tid vin extract).world.db.find?
        (fun r => r.task_id == tid) with _ | r
    · simp [hres, hf]
    · simp [hres, hf, schemasTaskStatusAttr_failed]
  · simp [hres]

/-- The job invokes the extraction collaborator at most once per run: there
is no retry around the direct call. -/
theorem job_extractCalls_le_one (flags : JobFlags) (w : World) (tid : String)
    (vin : VetInput) (extract : Nat → Res) :
    (process_vet_transcript flags w tid vin extract).extractCalls ≤ 1 := by
  rw [job_extractCalls_eq]
  unfold processVetTranscriptInner
  rcases hc : (if flags.cacheGetOk then w.cache.lookup (get_cache_key vin) else none)
      with _ | v
  · rcases hx : extract 0 with raw | e <;>
      simp [hc, schemasTaskStatusAttr_pending, schemasTaskStatusAttr_completed, hx]
  · simp [hc]

theorem RowInv_pendingRow (tid : String) (vin : VetInput) : RowInv (pendingRow tid vin) := by
  refine ⟨?_, ?_, ?_, ?_⟩ <;> simp [pendingRow, RowInv]

theorem RowInv_completedRow (tid : String) (vin : VetInput) (raw : Value) :
    RowInv (completedRow tid vin raw) := by
  refine ⟨?_, ?_, ?_, ?_⟩ <;> simp [completedRow, RowInv]

/-- C1: evaluation of the job at a failing input. The extraction call raises
after the PENDING record is created, but the failure handler evaluates
TaskStatus.FAILED on the schemas enum, which has no FAILED member: the
handler raises AttributeError, the record stays PENDING with a NULL
error_message, and the job raises the AttributeError instead of re-raising
the original error. The claimed FAILED update never happens. -/
theorem C1_failed_update_never_happens :
    process_vet_transcript ⟨true, true⟩ ⟨[], []⟩ "T1"
        ⟨"Dr. Lee: Hello.", none, "PET1", ⟨2025, 1, 1⟩, "V1", "C1", "SOAP_ER", "en"⟩
        (fun _ => .exc (.appError "boom")) =
      ⟨.error (.attributeError "type object TaskStatus has no attribute FAILED"),
       ⟨[], [⟨"T1", "Dr. Lee: Hello.", none, "PENDING", none, none, none,
              "PET1", "V1", "C1", "SOAP_ER", "en", ⟨2025, 1, 1⟩⟩]⟩, 1⟩ :=
  job_extract_error ⟨true, true⟩ ⟨[], []⟩ "T1"
    ⟨"Dr. Lee: Hello.", none, "PET1", ⟨2025, 1, 1⟩, "V1", "C1", "SOAP_ER", "en"⟩
    (fun _ => .exc (.appError "boom")) (.appError "boom") rfl rfl

/-- C2 counterexample: the extraction collaborator fails once (fewer than the
default retry limit of 3) and would succeed on the second attempt, yet the
job does not complete successfully — it calls the collaborator exactly once,
directly, so the transient failure fails the job. -/
theorem C2_transient_failure_fails_job_counterexample :
    (fun n : Nat => if n == 0 then Res.exc (.appError "transient")
        else Res.ok (.vDict [])) 1 = Res.ok (.vDict []) ∧
    1 < 3 ∧
    (process_vet_transcript ⟨true, true⟩ ⟨[], []⟩ "T2"
        ⟨"Dr. Lee: Hello.", none, "PET1", ⟨2025, 1, 1⟩, "V1", "C1", "SOAP_ER", "en"⟩
        (fun n => if n == 0 then Res.exc (.appError "transient")
          else Res.ok (.vDict []))).result =
      .error (.attributeError "type object TaskStatus has no attribute FAILED") ∧
    (process_vet_transcript ⟨true, true⟩ ⟨[], []⟩ "T2"
        ⟨"Dr. Lee: Hello.", none, "PET1", ⟨2025, 1, 1⟩, "V1", "C1", "SOAP_ER", "en"⟩
        (fun n => if n == 0 then Res.exc (.appError "transient")
          else Res.ok (.vDict []))).extractCalls = 1 := by
  have hjob := job_extract_error ⟨true, true⟩ ⟨[], []⟩ "T2"
    ⟨"Dr. Lee: Hello.", none, "PET1", ⟨2025, 1, 1⟩, "V1", "C1", "SOAP_ER", "en"⟩
    (fun n => if n == 0 then Res.exc (.appError "transient") else Res.ok (.vDict []))
    (.appError "transient") rfl rfl
  refine ⟨rfl, by decide, ?_, ?_⟩ <;> rw [hjob]

/-- C2 amended: the job does not route the extraction call through the
Resiliency Wrapper; it invokes the collaborator directly, at most once per
run, and when that single call raises on a cache miss the job fails (with
the AttributeError of the broken failure handler) even though a later
attempt would have succeeded. -/
theorem C2_extraction_called_directly :
    (∀ (flags : JobFlags) (w : World) (tid : String) (vin : VetInput) (extract : Nat → Res),
      (process_vet_transcript flags w tid vin extract).extractCalls ≤ 1) ∧
    (∀ (flags : JobFlags) (w : World) (tid : String) (vin : VetInput) (extract : Nat → Res)
        (e : PyExc),
      (if flags.cacheGetOk then w.cache.lookup (get_cache_key vin) else none) = none →
      extract 0 = .exc e →
      (process_vet_transcript flags w tid vin extract).result =
        .error (.attributeError "type object TaskStatus has no attribute FAILED")) := by
  constructor
  · intro flags w tid vin extract
    exact job_extractCalls_le_one flags w tid vin extract
  · intro flags w tid vin extract e hmiss hx
    rw [job_extract_error flags w tid vin extract e hmiss hx]

/-- C2 witness: the amended theorem at a concrete run whose single
extraction attempt fails. -/
theorem C2_extraction_called_directly_witness :
    ((if (⟨true, true⟩ : JobFlags).cacheGetOk then
        (⟨[], []⟩ : World).cache.lookup (get_cache_key
          ⟨"Dr. Lee: Hello.", none, "PET1", ⟨2025, 1, 1⟩, "V1", "C1", "SOAP_ER", "en"⟩)
      else none) = none) ∧
    (process_vet_transcript ⟨true, true⟩ ⟨[], []⟩ "T3"
        ⟨"Dr. Lee: Hello.", none, "PET1", ⟨2025, 1, 1⟩, "V1", "C1", "SOAP_ER", "en"⟩
        (fun _ => .exc (.appError "down"))).result =
      .error (.attributeError "type object TaskStatus has no attribute FAILED") :=
  ⟨rfl,
   C2_extraction_called_directly.2 ⟨true, true⟩ ⟨[], []⟩ "T3"
     ⟨"Dr. Lee: Hello.", none, "PET1", ⟨2025, 1, 1⟩, "V1", "C1", "SOAP_ER", "en"⟩
     (fun _ => .exc (.appError "down")) (.appError "down") rfl rfl⟩

/-- C6: when the cache read succeeds and the fingerprint of the submission
is present, the job returns the cached sanitized document, leaves both the
relational store and the cache exactly as they were (no record is created or
updated), and never invokes the extraction collaborator. -/
theorem C6_cache_hit_short_circuit (flags : JobFlags) (w : World) (tid : String)
    (vin : VetInput) (extract : Nat → Res) (v : Value)
    (hget : flags.cacheGetOk = true)
    (hhit : w.cache.lookup (get_cache_key vin) = some v) :
    (process_vet_transcript flags w tid vin extract).result = .ok v ∧
    (process_vet_transcript flags w tid vin extract).world = w ∧
    (process_vet_transcript flags w tid vin extract).extractCalls = 0 := by
  have hjob := job_cache_hit flags w tid vin extract v (by simp [hget, hhit])
  rw [hjob]
  exact ⟨rfl, rfl, rfl⟩

/-- C6 witness: the short-circuit theorem at a concrete world whose cache
already holds the fingerprint of the submitted input. -/
theorem C6_cache_hit_short_circuit_witness :
    (process_vet_transcript ⟨true, true⟩
        ⟨[(get_cache_key ⟨"Dr. Lee: Hello.", none, "PET1", ⟨2025, 1, 1⟩, "V1", "C1",
            "SOAP_ER", "en"⟩, Value.vDict [("warnings", Value.vList [])])], []⟩
        "T6" ⟨"Dr. Lee: Hello.", none, "PET1", ⟨2025, 1, 1⟩, "V1", "C1", "SOAP_ER", "en"⟩
        (fun _ => .exc (.baseExc "collaborator must not be called"))).result =
      .ok (Value.vDict [("warnings", Value.vList [])]) ∧
    (process_vet_transcript ⟨true, true⟩
        ⟨[(get_cache_key ⟨"Dr. Lee: Hello.", none, "PET1", ⟨2025, 1, 1⟩, "V1", "C1",
            "SOAP_ER", "en"⟩, Value.vDict [("warnings", Value.vList [])])], []⟩
        "T6" ⟨"Dr. Lee: Hello.", none, "PET1", ⟨2025, 1, 1⟩, "V1", "C1", "SOAP_ER", "en"⟩
        (fun _ => .exc (.baseExc "collaborator must not be called"))).extractCalls = 0 := by
  have h := C6_cache_hit_short_circuit ⟨true, true⟩
    ⟨[(get_cache_key ⟨"Dr. Lee: Hello.", none, "PET1", ⟨2025, 1, 1⟩, "V1", "C1",
        "SOAP_ER", "en"⟩, Value.vDict [("warnings", Value.vList [])])], []⟩
    "T6" ⟨"Dr. Lee: Hello.", none, "PET1", ⟨2025, 1, 1⟩, "V1", "C1", "SOAP_ER", "en"⟩
    (fun _ => .exc (.baseExc "collaborator must not be called"))
    (Value.vDict [("warnings", Value.vList [])]) rfl (by simp [List.lookup])
  exact ⟨h.1, h.2.2⟩

/-- C9: the row lifecycle invariant — result and raw_result present iff
COMPLETED, error_message present iff FAILED, exactly one of the two groups
non-null in a terminal state — is preserved by every run of the processing
job, starting from any store satisfying it, for the fresh task id the
scheduler assigns. (The FAILED side is preserved vacuously: the broken
failure handler of C1 never writes a FAILED row.) -/
theorem C9_terminal_state_exclusivity (flags : JobFlags) (w : World) (tid : String)
    (vin : VetInput) (extract : Nat → Res)
    (hinv : ∀ r ∈ w.db, RowInv r) (hfresh : ∀ r ∈ w.db, r.task_id ≠ tid) :
    ∀ r ∈ (process_vet_transcript flags w tid vin extract).world.db, RowInv r := by
  rcases hc : (if flags.cacheGetOk then w.cache.lookup (get_cache_key vin) else none)
      with _ | v
  · rcases hx : extract 0 with raw | e
    · rw [job_extract_ok flags w tid vin extract raw hc hfresh hx]
      intro r hr
      rcases List.mem_append.mp hr with h | h
      · exact hinv r h
      · have hr2 : r = completedRow tid vin raw := by simpa using h
        rw [hr2]
        exact RowInv_completedRow tid vin raw
    · rw [job_extract_error flags w tid vin extract e hc hx]
      intro r hr
      rcases List.mem_append.mp hr with h | h
      · exact hinv r h
      · have hr2 : r = pendingRow tid vin := by simpa using h
        rw [hr2]
        exact RowInv_pendingRow tid vin
  · rw [job_cache_hit flags w tid vin extract v hc]
    exact hinv

/-- C9 witness: the invariant preservation theorem at a concrete successful
run starting from the empty store. -/
theorem C9_terminal_state_exclusivity_witness :
    (∀ r ∈ (⟨[], []⟩ : World).db, RowInv r) ∧
    (∀ r ∈ (⟨[], []⟩ : World).db, r.task_id ≠ "T9") ∧
    ∀ r ∈ (process_vet_transcript ⟨true, true⟩ ⟨[], []⟩ "T9"
        ⟨"Dr. Lee: Hello.", none, "PET1", ⟨2025, 1, 1⟩, "V1", "C1", "SOAP_ER", "en"⟩
        (fun _ => .ok (.vDict [("warnings", .vList [])]))).world.db, RowInv r :=
  ⟨by simp, by simp,
   C9_terminal_state_exclusivity ⟨true, true⟩ ⟨[], []⟩ "T9"
     ⟨"Dr. Lee: Hello.", none, "PET1", ⟨2025, 1, 1⟩, "V1", "C1", "SOAP_ER", "en"⟩
     (fun _ => .ok (.vDict [("warnings", .vList [])])) (by simp) (by simp)⟩

end MedVX
